import Mathlib

/-!
Shallow embedding of `dbus-shelly-1pm-3Phase-pvinverter.py`.

The script publishes readings of a single-phase Shelly power meter as a
three-phase PV-inverter on D-Bus.  Two device variants exist:

* `DbusShelly1PMService` (variant A): reads `status`, whose
  `meters[Input]` entry carries `power` (W) and `total` (watt-minutes);
  voltage is the fixed nominal 230 V and current is derived as
  `power / voltage`.
* `DbusShelly1PlusPMService` (variant B): reads
  `rpc/Switch.GetStatus?id=Input`, which carries `apower`,
  `aenergy.total` (watt-hours), `voltage` and `current` directly.

Python numbers are modelled as rationals, JSON values as an inductive
type with Python truthiness, dictionary/index access as `Option`, and
exceptions as an explicit error type threaded through `Except`.  The
D-Bus paths written by the update cycle are modelled as a record
(`DbusState`): per-phase voltage/current/power/energy-forward plus the
aggregate `/Ac/Power`, `/Ac/Energy/Forward` and `/UpdateIndex`.

The tautological branch conditions of the source (`if phase == phase:`
at line 153 and `if active_phase == active_phase:` at line 199) are kept
exactly as written.
-/

set_option linter.unusedVariables false

/-- Python exceptions that the script can raise or observe. -/
inductive PyErr where
  /-- an exception raised by `requests.get` itself (network, timeout). -/
  | requestsError
  /-- the explicit `raise ConnectionError` on a falsy response object. -/
  | connectionError
  /-- a `request.json()` failure: empty body or invalid JSON. -/
  | jsonDecodeError
  /-- the explicit `raise ValueError` when the decoded JSON is falsy. -/
  | valueError
  /-- a KeyError / IndexError / TypeError while reading JSON fields. -/
  | keyError
deriving DecidableEq

/-- JSON values, with Python numbers as rationals. -/
inductive JsonValue where
  | null : JsonValue
  | bool : Bool → JsonValue
  | num : ℚ → JsonValue
  | str : String → JsonValue
  | arr : List JsonValue → JsonValue
  | obj : List (String × JsonValue) → JsonValue

/-- Python truthiness of a decoded JSON value (`if not data:`). -/
def JsonValue.truthy : JsonValue → Bool
  | .null => false
  | .bool b => b
  | .num q => q != 0
  | .str s => s != ""
  | .arr xs => !xs.isEmpty
  | .obj kvs => !kvs.isEmpty

/-- Python `d[key]` on a JSON value; `none` is a KeyError/TypeError. -/
def JsonValue.lookup : JsonValue → String → Option JsonValue
  | .obj kvs, k => List.lookup k kvs
  | _, _ => none

/-- Python `xs[i]` on a JSON value; `none` is an IndexError/TypeError. -/
def JsonValue.index : JsonValue → ℕ → Option JsonValue
  | .arr xs, i => xs[i]?
  | _, _ => none

/-- Reads a JSON value as a number; `none` is a TypeError. -/
def JsonValue.asNum : JsonValue → Option ℚ
  | .num q => some q
  | _ => none

/-- An HTTP response: status code, and the JSON parse of the body
(`none` when the body is empty or not valid JSON). -/
structure HttpResponse where
  status : ℕ
  body : Option JsonValue

/-- Embeds `DbusShellyBaseService._getShellyJson` (lines 96-109).  The
argument is the outcome of `requests.get`: `none` when the request
itself raised.  `if not request:` is `requests.Response.__bool__`,
which is `status_code < 400`; `request.json()` fails on an unparsable
body; `if not data:` rejects falsy decoded values. -/
def getShellyJson (resp : Option HttpResponse) : Except PyErr JsonValue :=
  match resp with
  | none => .error .requestsError
  | some r =>
    if 400 ≤ r.status then .error .connectionError
    else
      match r.body with
      | none => .error .jsonDecodeError
      | some data => if data.truthy then .ok data else .error .valueError

/-- Embeds `DbusShellyBaseService._getShellyBaseUrl` (lines 79-94),
after the `AccessType` guard: `if username or password:` is Python
string truthiness, and the f-strings are concatenation. -/
def getShellyBaseUrl (username password host : String) : String :=
  if username ≠ "" ∨ password ≠ "" then
    "http://" ++ username ++ ":" ++ password ++ "@" ++ host ++ "/"
  else
    "http://" ++ host ++ "/"

/-- The three phase labels iterated by `for phase in ('L1','L2','L3')`. -/
inductive Phase where
  | L1 : Phase
  | L2 : Phase
  | L3 : Phase
deriving DecidableEq

/-- The string the loop variable `phase` holds for each label. -/
def Phase.toStr : Phase → String
  | .L1 => "L1"
  | .L2 => "L2"
  | .L3 => "L3"

/-- The four per-phase D-Bus paths `/Ac/<phase>/{Voltage,Current,Power,
Energy/Forward}` written each cycle. -/
structure PhaseVals where
  voltage : ℚ
  current : ℚ
  power : ℚ
  energyForward : ℚ
deriving DecidableEq

/-- The D-Bus paths the update cycle writes: the three per-phase blocks,
the aggregates `/Ac/Power` and `/Ac/Energy/Forward`, and `/UpdateIndex`. -/
structure DbusState where
  l1 : PhaseVals
  l2 : PhaseVals
  l3 : PhaseVals
  acPower : ℚ
  acEnergyForward : ℚ
  updateIndex : ℕ
deriving DecidableEq

/-- Writes the four `/Ac/<phase>/...` paths of one phase. -/
def DbusState.setPhase (d : DbusState) : Phase → PhaseVals → DbusState
  | .L1, v => { d with l1 := v }
  | .L2, v => { d with l2 := v }
  | .L3, v => { d with l3 := v }

/-- Reads the four `/Ac/<phase>/...` paths of one phase. -/
def DbusState.phase (d : DbusState) : Phase → PhaseVals
  | .L1 => d.l1
  | .L2 => d.l2
  | .L3 => d.l3

/-- Reads `meter_data['meters'][meter_input][k]` as a number
(variant A, lines 154-155). -/
def readMeterFieldA (data : JsonValue) (meterInput : ℕ) (k : String) :
    Option ℚ := do
  let meters ← data.lookup "meters"
  let entry ← meters.index meterInput
  let v ← entry.lookup k
  v.asNum

/-- The `for phase in ('L1','L2','L3')` loop of
`DbusShelly1PMService._getShellyData` (lines 152-172): the branch
condition is the source's literal `phase == phase`; each iteration reads
`power` and `total`, fixes `voltage = 230`, derives
`current = power / voltage`, writes the four per-phase paths (energy
converted by `/ 1000 / 60`) and accumulates the totals.  The returned
state holds the writes performed before any exception. -/
def loopA (data : JsonValue) (meterInput : ℕ) :
    List Phase → ℚ → ℚ → DbusState → Except PyErr (ℚ × ℚ) × DbusState
  | [], totalPower, totalEnergy, d => (.ok (totalPower, totalEnergy), d)
  | ph :: rest, totalPower, totalEnergy, d =>
    if ph = ph then
      match readMeterFieldA data meterInput "power",
            readMeterFieldA data meterInput "total" with
      | some power, some energy =>
        let voltage : ℚ := 230
        let current : ℚ := power / voltage
        let d := d.setPhase ph ⟨voltage, current, power, energy / 1000 / 60⟩
        loopA data meterInput rest (totalPower + power) (totalEnergy + energy) d
      | _, _ => (.error .keyError, d)
    else
      let d := d.setPhase ph ⟨0, 0, 0, (0 : ℚ) / 1000 / 60⟩
      loopA data meterInput rest (totalPower + 0) (totalEnergy + 0) d

/-- Embeds `DbusShelly1PMService._getShellyData` (lines 145-177).
`cfgPhase` is `config['DEFAULT']['Phase']` (read, never used by the
branch), `fetch` the outcome of `self._getShellyJson("status")`.  After
the loop, `/Ac/Power` and `/Ac/Energy/Forward` are written and the
totals returned. -/
def getShellyDataA (cfgPhase : String) (fetch : Except PyErr JsonValue)
    (meterInput : ℕ) (d : DbusState) : Except PyErr (ℚ × ℚ) × DbusState :=
  match fetch with
  | .error e => (.error e, d)
  | .ok data =>
    match loopA data meterInput [Phase.L1, Phase.L2, Phase.L3] 0 0 d with
    | (.ok (totalPower, totalEnergy), d1) =>
      let d2 := { d1 with
        acPower := totalPower
        acEnergyForward := totalEnergy / 1000 / 60 }
      (.ok (totalPower, totalEnergy), d2)
    | (.error e, d1) => (.error e, d1)

/-- Reads `meter_data[k]` as a number (variant B, lines 200-203). -/
def readFieldB (data : JsonValue) (k : String) : Option ℚ :=
  (data.lookup k).bind JsonValue.asNum

/-- Reads `meter_data['aenergy']['total']` as a number (variant B,
line 201). -/
def readEnergyB (data : JsonValue) : Option ℚ := do
  let ae ← data.lookup "aenergy"
  let t ← ae.lookup "total"
  t.asNum

/-- The `for phase in ('L1','L2','L3')` loop of
`DbusShelly1PlusPMService._getShellyData` (lines 196-218):
`active_phase = phase == pvinverter_phase` is computed, but the branch
condition is the source's literal `active_phase == active_phase`; each
iteration reads `apower`, `aenergy.total`, `voltage` and `current`,
writes the four per-phase paths (energy converted by `/ 1000`) and
accumulates the totals. -/
def loopB (cfgPhase : String) (data : JsonValue) :
    List Phase → ℚ → ℚ → DbusState → Except PyErr (ℚ × ℚ) × DbusState
  | [], totalPower, totalEnergy, d => (.ok (totalPower, totalEnergy), d)
  | ph :: rest, totalPower, totalEnergy, d =>
    let activePhase := ph.toStr == cfgPhase
    if activePhase == activePhase then
      match readFieldB data "apower", readEnergyB data,
            readFieldB data "voltage", readFieldB data "current" with
      | some power, some energy, some voltage, some current =>
        let d := d.setPhase ph ⟨voltage, current, power, energy / 1000⟩
        loopB cfgPhase data rest (totalPower + power) (totalEnergy + energy) d
      | _, _, _, _ => (.error .keyError, d)
    else
      let d := d.setPhase ph ⟨0, 0, 0, (0 : ℚ) / 1000⟩
      loopB cfgPhase data rest (totalPower + 0) (totalEnergy + 0) d

/-- Embeds `DbusShelly1PlusPMService._getShellyData` (lines 189-223).
`cfgPhase` is `config['DEFAULT']['Phase']`, `fetch` the outcome of
`self._getShellyJson(f"rpc/Switch.GetStatus?id={meter_input}")`. -/
def getShellyDataB (cfgPhase : String) (fetch : Except PyErr JsonValue)
    (d : DbusState) : Except PyErr (ℚ × ℚ) × DbusState :=
  match fetch with
  | .error e => (.error e, d)
  | .ok data =>
    match loopB cfgPhase data [Phase.L1, Phase.L2, Phase.L3] 0 0 d with
    | (.ok (totalPower, totalEnergy), d1) =>
      let d2 := { d1 with
        acPower := totalPower
        acEnergyForward := totalEnergy / 1000 }
      (.ok (totalPower, totalEnergy), d2)
    | (.error e, d1) => (.error e, d1)

/-- The mutable service state the update cycle touches beyond the D-Bus
paths: `self._lastUpdate` (a `time.time()` timestamp). -/
structure ServiceState where
  dbus : DbusState
  lastUpdate : ℚ
deriving DecidableEq

/-- True when an `Except` result is an exception. -/
def isErr {ε α : Type} : Except ε α → Bool
  | .error _ => true
  | .ok _ => false

/-- Embeds `DbusShellyBaseService._update` (lines 117-133).  `getData`
is the bound `_getShellyData` of the concrete variant (it performs the
per-phase D-Bus writes itself and returns the totals or raises); on
success `/UpdateIndex` is incremented modulo 256 and `_lastUpdate` set
to the current time; any exception is caught and logged; the callback
always returns `True` so the GLib timer keeps firing. -/
def update (getData : DbusState → Except PyErr (ℚ × ℚ) × DbusState)
    (now : ℚ) (s : ServiceState) : Bool × ServiceState :=
  match getData s.dbus with
  | (.ok _, d1) =>
    let d2 := { d1 with updateIndex := (d1.updateIndex + 1) % 256 }
    (true, { dbus := d2, lastUpdate := now })
  | (.error _, d1) => (true, { s with dbus := d1 })

/-- One update cycle of variant A, keeping only the resulting state. -/
def stepA (cfgPhase : String) (fetch : Except PyErr JsonValue)
    (meterInput : ℕ) (now : ℚ) (s : ServiceState) : ServiceState :=
  (update (getShellyDataA cfgPhase fetch meterInput) now s).2

/-- The initial value of every per-phase path block (the script
initialises voltage/current/power to 0; energy to `None`, modelled 0). -/
def initPhase : PhaseVals := ⟨0, 0, 0, 0⟩

/-- The D-Bus paths as initialised in `main` before the first cycle. -/
def initDbus : DbusState :=
  { l1 := initPhase, l2 := initPhase, l3 := initPhase
    acPower := 0, acEnergyForward := 0, updateIndex := 0 }

/-- The service state before the first cycle (`self._lastUpdate = 0`). -/
def initState : ServiceState := { dbus := initDbus, lastUpdate := 0 }

/-- A variant-A `status` response whose `meters[0]` entry carries the
given `power` (W) and `total` (watt-minutes). -/
def mkDataA (power total : ℚ) : JsonValue :=
  .obj [("meters", .arr [.obj [("power", .num power), ("total", .num total)]])]

/-- A variant-B `Switch.GetStatus` response carrying `apower`,
`aenergy.total`, `voltage` and `current`. -/
def mkDataB (apower total voltage current : ℚ) : JsonValue :=
  .obj [("apower", .num apower), ("aenergy", .obj [("total", .num total)]),
        ("voltage", .num voltage), ("current", .num current)]

lemma readMeterFieldA_power (p t : ℚ) :
    readMeterFieldA (mkDataA p t) 0 "power" = some p := rfl

lemma readMeterFieldA_total (p t : ℚ) :
    readMeterFieldA (mkDataA p t) 0 "total" = some t := rfl

lemma readFieldB_apower (p t v c : ℚ) :
    readFieldB (mkDataB p t v c) "apower" = some p := rfl

lemma readEnergyB_mk (p t v c : ℚ) :
    readEnergyB (mkDataB p t v c) = some t := rfl

lemma readFieldB_voltage (p t v c : ℚ) :
    readFieldB (mkDataB p t v c) "voltage" = some v := rfl

lemma readFieldB_current (p t v c : ℚ) :
    readFieldB (mkDataB p t v c) "current" = some c := rfl

/-- Evaluation of variant A's `_getShellyData` when both field reads
succeed: the tautological `phase == phase` puts the full reading on all
three phases and triples the totals. -/
lemma dataA_ok_eval (cfgPhase : String) (data : JsonValue) (meterInput : ℕ)
    (d : DbusState) (p t : ℚ)
    (hp : readMeterFieldA data meterInput "power" = some p)
    (ht : readMeterFieldA data meterInput "total" = some t) :
    getShellyDataA cfgPhase (.ok data) meterInput d =
      (.ok (0 + p + p + p, 0 + t + t + t),
       { l1 := ⟨230, p / 230, p, t / 1000 / 60⟩
         l2 := ⟨230, p / 230, p, t / 1000 / 60⟩
         l3 := ⟨230, p / 230, p, t / 1000 / 60⟩
         acPower := 0 + p + p + p
         acEnergyForward := (0 + t + t + t) / 1000 / 60
         updateIndex := d.updateIndex }) := by
  simp [getShellyDataA, loopA, hp, ht, DbusState.setPhase]

/-- Variant A leaves the D-Bus state untouched when a field read fails:
every iteration performs the same reads, so a failing read already fails
in the first iteration, before any write. -/
lemma dataA_err_eval (cfgPhase : String) (data : JsonValue) (meterInput : ℕ)
    (d : DbusState)
    (h : readMeterFieldA data meterInput "power" = none ∨
         readMeterFieldA data meterInput "total" = none) :
    getShellyDataA cfgPhase (.ok data) meterInput d = (.error .keyError, d) := by
  rcases h with h | h
  · rcases ht : readMeterFieldA data meterInput "total" with _ | t <;>
      simp [getShellyDataA, loopA, h, ht]
  · rcases hp : readMeterFieldA data meterInput "power" with _ | p <;>
      simp [getShellyDataA, loopA, h, hp]

lemma dataA_fetch_err (cfgPhase : String) (e : PyErr) (meterInput : ℕ)
    (d : DbusState) :
    getShellyDataA cfgPhase (.error e) meterInput d = (.error e, d) := rfl

/-- Evaluation of variant B's `_getShellyData` when all four field reads
succeed: the tautological `active_phase == active_phase` puts the full
reading on all three phases and triples the totals. -/
lemma dataB_ok_eval (cfgPhase : String) (data : JsonValue) (d : DbusState)
    (p t v c : ℚ)
    (hp : readFieldB data "apower" = some p)
    (ht : readEnergyB data = some t)
    (hv : readFieldB data "voltage" = some v)
    (hc : readFieldB data "current" = some c) :
    getShellyDataB cfgPhase (.ok data) d =
      (.ok (0 + p + p + p, 0 + t + t + t),
       { l1 := ⟨v, c, p, t / 1000⟩
         l2 := ⟨v, c, p, t / 1000⟩
         l3 := ⟨v, c, p, t / 1000⟩
         acPower := 0 + p + p + p
         acEnergyForward := (0 + t + t + t) / 1000
         updateIndex := d.updateIndex }) := by
  simp [getShellyDataB, loopB, hp, ht, hv, hc, DbusState.setPhase]

/-- Variant B leaves the D-Bus state untouched when a field read fails. -/
lemma dataB_err_eval (cfgPhase : String) (data : JsonValue) (d : DbusState)
    (h : readFieldB data "apower" = none ∨ readEnergyB data = none ∨
         readFieldB data "voltage" = none ∨ readFieldB data "current" = none) :
    getShellyDataB cfgPhase (.ok data) d = (.error .keyError, d) := by
  rcases hp : readFieldB data "apower" with _ | p <;>
    rcases ht : readEnergyB data with _ | t <;>
      rcases hv : readFieldB data "voltage" with _ | v <;>
        rcases hc : readFieldB data "current" with _ | c <;>
          simp [hp, ht, hv, hc] at h ⊢ <;>
            simp [getShellyDataB, loopB, hp, ht, hv, hc]

lemma dataB_fetch_err (cfgPhase : String) (e : PyErr) (d : DbusState) :
    getShellyDataB cfgPhase (.error e) d = (.error e, d) := rfl

/-- A failing variant-A cycle performs no D-Bus write at all. -/
lemma dataA_err_state (cfgPhase : String) (fetch : Except PyErr JsonValue)
    (meterInput : ℕ) (d : DbusState)
    (h : isErr (getShellyDataA cfgPhase fetch meterInput d).1 = true) :
    (getShellyDataA cfgPhase fetch meterInput d).2 = d := by
  cases fetch with
  | error e => rfl
  | ok data =>
    rcases hp : readMeterFieldA data meterInput "power" with _ | p
    · rw [dataA_err_eval cfgPhase data meterInput d (Or.inl hp)]
    · rcases ht : readMeterFieldA data meterInput "total" with _ | t
      · rw [dataA_err_eval cfgPhase data meterInput d (Or.inr ht)]
      · rw [dataA_ok_eval cfgPhase data meterInput d p t hp ht] at h
        simp [isErr] at h

/-- A failing variant-B cycle performs no D-Bus write at all. -/
lemma dataB_err_state (cfgPhase : String) (fetch : Except PyErr JsonValue)
    (d : DbusState)
    (h : isErr (getShellyDataB cfgPhase fetch d).1 = true) :
    (getShellyDataB cfgPhase fetch d).2 = d := by
  cases fetch with
  | error e => rfl
  | ok data =>
    rcases hp : readFieldB data "apower" with _ | p
    · rw [dataB_err_eval cfgPhase data d (Or.inl hp)]
    · rcases ht : readEnergyB data with _ | t
      · rw [dataB_err_eval cfgPhase data d (Or.inr (Or.inl ht))]
      · rcases hv : readFieldB data "voltage" with _ | v
        · rw [dataB_err_eval cfgPhase data d (Or.inr (Or.inr (Or.inl hv)))]
        · rcases hc : readFieldB data "current" with _ | c
          · rw [dataB_err_eval cfgPhase data d (Or.inr (Or.inr (Or.inr hc)))]
          · rw [dataB_ok_eval cfgPhase data d p t v c hp ht hv hc] at h
            simp [isErr] at h

/-- When `_getShellyData` raises and had written nothing, `_update`
swallows the exception, keeps the whole state and returns `True`. -/
lemma update_err (getData : DbusState → Except PyErr (ℚ × ℚ) × DbusState)
    (now : ℚ) (s : ServiceState)
    (hstate : (getData s.dbus).2 = s.dbus)
    (herr : isErr (getData s.dbus).1 = true) :
    update getData now s = (true, s) := by
  rcases hg : getData s.dbus with ⟨res, d1⟩
  rw [hg] at hstate herr
  cases res with
  | error e =>
    simp at hstate
    simp [update, hg, hstate]
  | ok v => simp [isErr] at herr

/-- `_getShellyData` (variant A) never touches `/UpdateIndex`. -/
lemma dataA_updateIndex (cfgPhase : String) (fetch : Except PyErr JsonValue)
    (meterInput : ℕ) (d : DbusState) :
    (getShellyDataA cfgPhase fetch meterInput d).2.updateIndex =
      d.updateIndex := by
  cases fetch with
  | error e => rfl
  | ok data =>
    rcases hp : readMeterFieldA data meterInput "power" with _ | p
    · rw [dataA_err_eval cfgPhase data meterInput d (Or.inl hp)]
    · rcases ht : readMeterFieldA data meterInput "total" with _ | t
      · rw [dataA_err_eval cfgPhase data meterInput d (Or.inr ht)]
      · rw [dataA_ok_eval cfgPhase data meterInput d p t hp ht]

/-- Whether a variant-A cycle succeeds does not depend on the D-Bus
state: the field reads only look at the fetched JSON. -/
lemma dataA_fst_indep (cfgPhase : String) (fetch : Except PyErr JsonValue)
    (meterInput : ℕ) (d d' : DbusState) :
    (getShellyDataA cfgPhase fetch meterInput d).1 =
      (getShellyDataA cfgPhase fetch meterInput d').1 := by
  cases fetch with
  | error e => rfl
  | ok data =>
    rcases hp : readMeterFieldA data meterInput "power" with _ | p
    · rw [dataA_err_eval cfgPhase data meterInput d (Or.inl hp),
        dataA_err_eval cfgPhase data meterInput d' (Or.inl hp)]
    · rcases ht : readMeterFieldA data meterInput "total" with _ | t
      · rw [dataA_err_eval cfgPhase data meterInput d (Or.inr ht),
          dataA_err_eval cfgPhase data meterInput d' (Or.inr ht)]
      · rw [dataA_ok_eval cfgPhase data meterInput d p t hp ht,
          dataA_ok_eval cfgPhase data meterInput d' p t hp ht]

/-- A successful variant-A cycle bumps `/UpdateIndex` by one modulo 256. -/
lemma stepA_updateIndex_ok (cfgPhase : String) (fetch : Except PyErr JsonValue)
    (meterInput : ℕ) (now : ℚ) (s : ServiceState)
    (h : isErr (getShellyDataA cfgPhase fetch meterInput s.dbus).1 = false) :
    (stepA cfgPhase fetch meterInput now s).dbus.updateIndex =
      (s.dbus.updateIndex + 1) % 256 := by
  have hidx := dataA_updateIndex cfgPhase fetch meterInput s.dbus
  rcases hg : getShellyDataA cfgPhase fetch meterInput s.dbus with ⟨res, d1⟩
  rw [hg] at hidx h
  cases res with
  | error e => simp [isErr] at h
  | ok v =>
    simp at hidx
    simp [stepA, update, hg, hidx]

/-- A failing variant-A cycle leaves `/UpdateIndex` untouched. -/
lemma stepA_updateIndex_err (cfgPhase : String) (fetch : Except PyErr JsonValue)
    (meterInput : ℕ) (now : ℚ) (s : ServiceState)
    (h : isErr (getShellyDataA cfgPhase fetch meterInput s.dbus).1 = true) :
    stepA cfgPhase fetch meterInput now s = s := by
  have := update_err (getShellyDataA cfgPhase fetch meterInput) now s
    (dataA_err_state cfgPhase fetch meterInput s.dbus h) h
  simp [stepA, this]

/-- Iterating successful variant-A cycles counts modulo 256. -/
lemma stepA_iter_updateIndex (cfgPhase : String)
    (fetch : Except PyErr JsonValue) (meterInput : ℕ) (now : ℚ)
    (s : ServiceState)
    (h : isErr (getShellyDataA cfgPhase fetch meterInput s.dbus).1 = false)
    (h0 : s.dbus.updateIndex = 0) :
    ∀ n : ℕ, ((stepA cfgPhase fetch meterInput now)^[n] s).dbus.updateIndex =
      n % 256 := by
  intro n
  induction n with
  | zero => simpa using h0
  | succ n ih =>
    rw [Function.iterate_succ_apply']
    rw [stepA_updateIndex_ok cfgPhase fetch meterInput now _
      (by rw [dataA_fst_indep cfgPhase fetch meterInput _ s.dbus]; exact h)]
    rw [ih]
    omega

/-- The configured phase label never influences variant B's loop: the
branch condition `active_phase == active_phase` is a tautology. -/
lemma loopB_cfg_indep (cfg1 cfg2 : String) (data : JsonValue) :
    ∀ (l : List Phase) (totalPower totalEnergy : ℚ) (d : DbusState),
      loopB cfg1 data l totalPower totalEnergy d =
        loopB cfg2 data l totalPower totalEnergy d := by
  intro l
  induction l with
  | nil => intro tp te d; rfl
  | cons ph rest ih =>
    intro tp te d
    simp only [loopB, beq_self_eq_true, if_true]
    rcases readFieldB data "apower" with _ | p <;>
      rcases readEnergyB data with _ | t <;>
        rcases readFieldB data "voltage" with _ | v <;>
          rcases readFieldB data "current" with _ | c <;>
            simp [ih]

/-- The configured phase label never influences variant B's
`_getShellyData` as a whole. -/
lemma dataB_cfg_indep (cfg1 cfg2 : String) (fetch : Except PyErr JsonValue)
    (d : DbusState) :
    getShellyDataB cfg1 fetch d = getShellyDataB cfg2 fetch d := by
  cases fetch with
  | error e => rfl
  | ok data => simp [getShellyDataB, loopB_cfg_indep cfg1 cfg2 data]

/-- C1: the spec says every cycle publishes exactly one non-zero phase
record (the configured one; the other two all zero).  Evaluating the
code at a concrete snapshot (power 100 W, energy 6000 resp. 1000, phase
configured `L1`) shows all three phase records carry the full non-zero
reading in both variants: the `phase == phase` / `active_phase ==
active_phase` branch conditions are tautologies, so the zero branch is
dead.  The totals do equal the per-phase sums, but three non-zero
records are published, not one. -/
theorem c1_code_eval :
    ((getShellyDataA "L1" (.ok (mkDataA 100 6000)) 0 initDbus).2.l1.power = 100
      ∧ (getShellyDataA "L1" (.ok (mkDataA 100 6000)) 0 initDbus).2.l2.power = 100
      ∧ (getShellyDataA "L1" (.ok (mkDataA 100 6000)) 0 initDbus).2.l3.power = 100)
    ∧ ((getShellyDataB "L1" (.ok (mkDataB 100 1000 230 2)) initDbus).2.l1.power = 100
      ∧ (getShellyDataB "L1" (.ok (mkDataB 100 1000 230 2)) initDbus).2.l2.power = 100
      ∧ (getShellyDataB "L1" (.ok (mkDataB 100 1000 230 2)) initDbus).2.l3.power = 100) := by
  decide

/-- C2: the spec says the published `/Ac/Power` equals the snapshot's
power reading and `/Ac/Energy/Forward` the snapshot's energy counter in
kWh.  Evaluating the code at power 100 W and energy 6000 Wmin (variant
A) resp. 1000 Wh (variant B) shows both aggregates are tripled: 300 W
instead of 100 W, 0.3 kWh instead of 0.1 kWh, and 3 kWh instead of
1 kWh, because every phase of the loop accumulates the full reading. -/
theorem c2_code_eval :
    (getShellyDataA "L1" (.ok (mkDataA 100 6000)) 0 initDbus).2.acPower = 300
    ∧ (getShellyDataA "L1" (.ok (mkDataA 100 6000)) 0 initDbus).2.acEnergyForward = 3 / 10
    ∧ (getShellyDataB "L1" (.ok (mkDataB 100 1000 230 2)) initDbus).2.acPower = 300
    ∧ (getShellyDataB "L1" (.ok (mkDataB 100 1000 230 2)) initDbus).2.acEnergyForward = 3 := by
  have hA := dataA_ok_eval "L1" (mkDataA 100 6000) 0 initDbus 100 6000
    (readMeterFieldA_power 100 6000) (readMeterFieldA_total 100 6000)
  have hB := dataB_ok_eval "L1" (mkDataB 100 1000 230 2) initDbus 100 1000 230 2
    (readFieldB_apower 100 1000 230 2) (readEnergyB_mk 100 1000 230 2)
    (readFieldB_voltage 100 1000 230 2) (readFieldB_current 100 1000 230 2)
  rw [hA, hB]
  norm_num

/-- C3: the spec says reconfiguring the active phase from `L1` to `L2`
zeroes the previously active phase `L1` on the very next cycle.
Evaluating the code on the same snapshot under both configurations
shows phase `L1` still publishes the full 100 W after the switch to
`L2`, in both variants: the configured label never reaches the branch
condition. -/
theorem c3_code_eval :
    (getShellyDataB "L1" (.ok (mkDataB 100 1000 230 2)) initDbus).2.l1.power = 100
    ∧ (getShellyDataB "L2" (.ok (mkDataB 100 1000 230 2)) initDbus).2.l1.power = 100
    ∧ ¬ (getShellyDataB "L2" (.ok (mkDataB 100 1000 230 2)) initDbus).2.l1.power = 0
    ∧ (getShellyDataA "L2" (.ok (mkDataA 100 6000)) 0 initDbus).2.l1.power = 100
    ∧ ¬ (getShellyDataA "L2" (.ok (mkDataA 100 6000)) 0 initDbus).2.l1.power = 0 := by
  decide

/-- C4: energy unit conversion to kWh is exact per variant.  For every
snapshot, every published per-phase `/Ac/<phase>/Energy/Forward` equals
the watt-minute counter divided by 1000 and then by 60 in variant A and
the watt-hour counter divided by 1000 in variant B; in particular a
variant-A counter of 6000 publishes 0.1 kWh and a variant-B counter of
1000 publishes 1 kWh. -/
theorem c4_energy_conversion (p t v c : ℚ) (cfgPhase : String)
    (d : DbusState) :
    ((getShellyDataA cfgPhase (.ok (mkDataA p t)) 0 d).2.l1.energyForward = t / 1000 / 60
      ∧ (getShellyDataA cfgPhase (.ok (mkDataA p t)) 0 d).2.l2.energyForward = t / 1000 / 60
      ∧ (getShellyDataA cfgPhase (.ok (mkDataA p t)) 0 d).2.l3.energyForward = t / 1000 / 60)
    ∧ (getShellyDataA cfgPhase (.ok (mkDataA p 6000)) 0 d).2.l1.energyForward = 1 / 10
    ∧ ((getShellyDataB cfgPhase (.ok (mkDataB p t v c)) d).2.l1.energyForward = t / 1000
      ∧ (getShellyDataB cfgPhase (.ok (mkDataB p t v c)) d).2.l2.energyForward = t / 1000
      ∧ (getShellyDataB cfgPhase (.ok (mkDataB p t v c)) d).2.l3.energyForward = t / 1000)
    ∧ (getShellyDataB cfgPhase (.ok (mkDataB p 1000 v c)) d).2.l1.energyForward = 1 := by
  have hA := dataA_ok_eval cfgPhase (mkDataA p t) 0 d p t
    (readMeterFieldA_power p t) (readMeterFieldA_total p t)
  have hA6 := dataA_ok_eval cfgPhase (mkDataA p 6000) 0 d p 6000
    (readMeterFieldA_power p 6000) (readMeterFieldA_total p 6000)
  have hB := dataB_ok_eval cfgPhase (mkDataB p t v c) d p t v c
    (readFieldB_apower p t v c) (readEnergyB_mk p t v c)
    (readFieldB_voltage p t v c) (readFieldB_current p t v c)
  have hB1 := dataB_ok_eval cfgPhase (mkDataB p 1000 v c) d p 1000 v c
    (readFieldB_apower p 1000 v c) (readEnergyB_mk p 1000 v c)
    (readFieldB_voltage p 1000 v c) (readFieldB_current p 1000 v c)
  rw [hA, hA6, hB, hB1]
  norm_num

/-- C9: in variant A the published voltage of every phase is the fixed
nominal 230 V and the published current is the snapshot power divided
by 230; in particular power 460 W yields a current of 2 A. -/
theorem c9_nominal_voltage_current (p t : ℚ) (cfgPhase : String)
    (d : DbusState) :
    ((getShellyDataA cfgPhase (.ok (mkDataA p t)) 0 d).2.l1.voltage = 230
      ∧ (getShellyDataA cfgPhase (.ok (mkDataA p t)) 0 d).2.l2.voltage = 230
      ∧ (getShellyDataA cfgPhase (.ok (mkDataA p t)) 0 d).2.l3.voltage = 230)
    ∧ ((getShellyDataA cfgPhase (.ok (mkDataA p t)) 0 d).2.l1.current = p / 230
      ∧ (getShellyDataA cfgPhase (.ok (mkDataA p t)) 0 d).2.l2.current = p / 230
      ∧ (getShellyDataA cfgPhase (.ok (mkDataA p t)) 0 d).2.l3.current = p / 230)
    ∧ (getShellyDataA cfgPhase (.ok (mkDataA 460 t)) 0 d).2.l1.current = 2 := by
  have hA := dataA_ok_eval cfgPhase (mkDataA p t) 0 d p t
    (readMeterFieldA_power p t) (readMeterFieldA_total p t)
  have hA460 := dataA_ok_eval cfgPhase (mkDataA 460 t) 0 d 460 t
    (readMeterFieldA_power 460 t) (readMeterFieldA_total 460 t)
  rw [hA, hA460]
  norm_num

/-- C10: the configured active-phase label has no influence on any
published output: for both variants, two cycles on the same device
response but different configured labels produce identical results and
identical post-update states (the label is read into a local variable
the branch condition never actually uses). -/
theorem c10_phase_label_no_influence (cfg1 cfg2 : String)
    (fetch : Except PyErr JsonValue) (meterInput : ℕ) (d : DbusState)
    (now : ℚ) (s : ServiceState) :
    getShellyDataA cfg1 fetch meterInput d = getShellyDataA cfg2 fetch meterInput d
    ∧ getShellyDataB cfg1 fetch d = getShellyDataB cfg2 fetch d
    ∧ update (getShellyDataA cfg1 fetch meterInput) now s =
        update (getShellyDataA cfg2 fetch meterInput) now s
    ∧ update (getShellyDataB cfg1 fetch) now s =
        update (getShellyDataB cfg2 fetch) now s := by
  have hB : getShellyDataB cfg1 fetch = getShellyDataB cfg2 fetch :=
    funext fun d => dataB_cfg_indep cfg1 cfg2 fetch d
  exact ⟨rfl, congrFun hB d, rfl, by rw [hB]⟩

/-- C5: a cycle in which `_getShellyData` raises (transport failure,
decode failure, or any field read error) leaves the whole service state
byte-for-byte unchanged — no D-Bus value changes, `/UpdateIndex` is not
incremented, `_lastUpdate` is not set — the exception is not propagated,
and the callback still returns `True` so the timer keeps firing.  Stated
for both variants. -/
theorem c5_error_cycle_unchanged (cfgPhase : String)
    (fetch : Except PyErr JsonValue) (meterInput : ℕ) (now : ℚ)
    (s : ServiceState) :
    (isErr (getShellyDataA cfgPhase fetch meterInput s.dbus).1 = true →
      update (getShellyDataA cfgPhase fetch meterInput) now s = (true, s))
    ∧ (isErr (getShellyDataB cfgPhase fetch s.dbus).1 = true →
      update (getShellyDataB cfgPhase fetch) now s = (true, s)) := by
  constructor
  · intro h
    exact update_err _ now s (dataA_err_state cfgPhase fetch meterInput s.dbus h) h
  · intro h
    exact update_err _ now s (dataB_err_state cfgPhase fetch s.dbus h) h

/-- Witness for `c5_error_cycle_unchanged` at a concrete failing fetch:
both variants keep the initial state and return `True`. -/
theorem c5_error_cycle_unchanged_witness :
    update (getShellyDataA "L1" (.error .requestsError) 0) 7 initState = (true, initState)
    ∧ update (getShellyDataB "L1" (.error .jsonDecodeError)) 7 initState = (true, initState) :=
  ⟨(c5_error_cycle_unchanged "L1" (.error .requestsError) 0 7 initState).1 rfl,
   (c5_error_cycle_unchanged "L1" (.error .jsonDecodeError) 0 7 initState).2 rfl⟩

/-- C6: `/UpdateIndex` is an 8-bit wrapping counter.  A successful
cycle sets it to its old value plus one modulo 256, a failing cycle
leaves it unchanged, any cycle keeps it in `0..255`, and 256 consecutive
successful cycles starting from 0 return it to 0. -/
theorem c6_update_counter (cfgPhase : String)
    (fetch : Except PyErr JsonValue) (meterInput : ℕ) (now : ℚ)
    (s : ServiceState) :
    (isErr (getShellyDataA cfgPhase fetch meterInput s.dbus).1 = false →
      (stepA cfgPhase fetch meterInput now s).dbus.updateIndex =
        (s.dbus.updateIndex + 1) % 256)
    ∧ (isErr (getShellyDataA cfgPhase fetch meterInput s.dbus).1 = true →
      (stepA cfgPhase fetch meterInput now s).dbus.updateIndex =
        s.dbus.updateIndex)
    ∧ (s.dbus.updateIndex < 256 →
      (stepA cfgPhase fetch meterInput now s).dbus.updateIndex < 256)
    ∧ (isErr (getShellyDataA cfgPhase fetch meterInput s.dbus).1 = false →
      s.dbus.updateIndex = 0 →
      ((stepA cfgPhase fetch meterInput now)^[256] s).dbus.updateIndex = 0) := by
  refine ⟨stepA_updateIndex_ok cfgPhase fetch meterInput now s, ?_, ?_, ?_⟩
  · intro h
    rw [stepA_updateIndex_err cfgPhase fetch meterInput now s h]
  · intro hc
    cases he : isErr (getShellyDataA cfgPhase fetch meterInput s.dbus).1 with
    | false =>
      rw [stepA_updateIndex_ok cfgPhase fetch meterInput now s he]
      exact Nat.mod_lt _ (by norm_num)
    | true =>
      rw [stepA_updateIndex_err cfgPhase fetch meterInput now s he]
      exact hc
  · intro he h0
    exact (stepA_iter_updateIndex cfgPhase fetch meterInput now s he h0 256).trans
      (by norm_num)

/-- Witness for `c6_update_counter` at a concrete successful snapshot
and a concrete failing fetch, starting from the initial state. -/
theorem c6_update_counter_witness :
    (stepA "L1" (.ok (mkDataA 100 6000)) 0 9 initState).dbus.updateIndex =
      (initState.dbus.updateIndex + 1) % 256
    ∧ (stepA "L1" (.error .requestsError) 0 9 initState).dbus.updateIndex =
      initState.dbus.updateIndex
    ∧ (stepA "L1" (.ok (mkDataA 100 6000)) 0 9 initState).dbus.updateIndex < 256
    ∧ ((stepA "L1" (.ok (mkDataA 100 6000)) 0 9)^[256] initState).dbus.updateIndex = 0 :=
  ⟨(c6_update_counter "L1" (.ok (mkDataA 100 6000)) 0 9 initState).1 rfl,
   (c6_update_counter "L1" (.error .requestsError) 0 9 initState).2.1 rfl,
   (c6_update_counter "L1" (.ok (mkDataA 100 6000)) 0 9 initState).2.2.1 (by decide),
   (c6_update_counter "L1" (.ok (mkDataA 100 6000)) 0 9 initState).2.2.2 rfl rfl⟩

/-- C7 counterexample: the claim says a transport error is raised
exactly on a non-2xx status and a decode error exactly on an
empty/invalid body, with success otherwise.  A 301 response (non-2xx)
does not raise the transport error (the `not request` check only fires
for status ≥ 400), and a 200 response whose body is the valid JSON
`{}` does not succeed: the `not data` truthiness check raises. -/
theorem c7_fetch_counterexample :
    getShellyJson (some ⟨301, none⟩) = .error .jsonDecodeError
    ∧ getShellyJson (some ⟨301, none⟩) ≠ .error .connectionError
    ∧ getShellyJson (some ⟨200, some (.obj [])⟩) = .error .valueError
    ∧ getShellyJson (some ⟨200, some (.obj [])⟩) ≠ .ok (.obj []) := by
  refine ⟨rfl, ?_, rfl, ?_⟩
  · rw [show getShellyJson (some ⟨301, none⟩) = .error .jsonDecodeError from rfl]
    simp
  · rw [show getShellyJson (some ⟨200, some (.obj [])⟩) = .error .valueError from rfl]
    simp

/-- C7 amended: `_getShellyJson` raises the transport-level
`ConnectionError` exactly when the response status is at least 400 (not
on every non-2xx status); below 400 it raises a decode error exactly
when the body is empty or not valid JSON; it additionally raises a
`ValueError` when the body decodes to a falsy JSON value; it returns
the decoded JSON value exactly when the status is below 400 and the
body decodes to a truthy JSON value.  A failing `requests.get` itself
propagates as an exception. -/
theorem c7_fetch_amended (r : HttpResponse) :
    (getShellyJson none = .error .requestsError)
    ∧ (getShellyJson (some r) = .error .connectionError ↔ 400 ≤ r.status)
    ∧ (getShellyJson (some r) = .error .jsonDecodeError ↔
        r.status < 400 ∧ r.body = none)
    ∧ (getShellyJson (some r) = .error .valueError ↔
        r.status < 400 ∧ ∃ v, r.body = some v ∧ v.truthy = false)
    ∧ (∀ v : JsonValue, getShellyJson (some r) = .ok v ↔
        r.status < 400 ∧ r.body = some v ∧ v.truthy = true) := by
  obtain ⟨st, body⟩ := r
  by_cases hst : 400 ≤ st
  · simp [getShellyJson, hst, Nat.not_lt.mpr hst]
  · have hlt : st < 400 := Nat.lt_of_not_le hst
    cases body with
    | none => simp [getShellyJson, hst, hlt]
    | some v =>
      by_cases htr : v.truthy = true
      · simp [getShellyJson, hst, hlt, htr]
      · have htr' : v.truthy = false := by
          cases hv : v.truthy
          · rfl
          · exact absurd hv htr
        simp [getShellyJson, hst, hlt, htr']

/-- C8 counterexample: the claim says the credential part appears if
and only if both the username and the password are non-empty.  With
username `u` and an empty password the code still emits the credential
part (`if username or password:` is a disjunction), producing
`http://u:@shelly.local/` instead of `http://shelly.local/`. -/
theorem c8_base_url_counterexample :
    getShellyBaseUrl "u" "" "shelly.local" = "http://u:@shelly.local/"
    ∧ getShellyBaseUrl "u" "" "shelly.local" ≠ "http://shelly.local/" := by
  constructor
  · decide
  · decide

/-- C8 amended: the base URL carries the credential part
`username:password@` if and only if at least one of username and
password is non-empty; it is the bare `http://host/` exactly when both
are empty. -/
theorem c8_base_url_amended (username password host : String) :
    (getShellyBaseUrl username password host =
        "http://" ++ username ++ ":" ++ password ++ "@" ++ host ++ "/"
      ∨ getShellyBaseUrl username password host = "http://" ++ host ++ "/")
    ∧ (getShellyBaseUrl username password host = "http://" ++ host ++ "/" ↔
        username = "" ∧ password = "") := by
  by_cases hcond : username ≠ "" ∨ password ≠ ""
  · have hurl : getShellyBaseUrl username password host =
        "http://" ++ username ++ ":" ++ password ++ "@" ++ host ++ "/" := by
      simp [getShellyBaseUrl, hcond]
    refine ⟨Or.inl hurl, ?_, ?_⟩
    · intro hbad
      exfalso
      have hlen := congrArg String.length (hurl.symm.trans hbad)
      simp only [String.length_append] at hlen
      have l7 : ("http://" : String).length = 7 := rfl
      have lc : (":" : String).length = 1 := rfl
      have la : ("@" : String).length = 1 := rfl
      have ls : ("/" : String).length = 1 := rfl
      rw [l7, lc, la, ls] at hlen
      omega
    · rintro ⟨hu, hp⟩
      rcases hcond with h | h
      · exact absurd hu h
      · exact absurd hp h
  · push_neg at hcond
    have hurl : getShellyBaseUrl username password host =
        "http://" ++ host ++ "/" := by
      simp [getShellyBaseUrl, hcond.1, hcond.2]
    exact ⟨Or.inr hurl, ⟨fun _ => hcond, fun _ => hurl⟩⟩
